import Mathlib

/-!
Verification of the computational core of the IceShieldSolution repository:
the salinity/freezing-point physics model, the freshwater dilution calculator,
the grid-based frozen-area classifier, the synthetic Arctic field generator,
and the scenario persistence contract.

Numeric code is embedded over `ℚ` (and over `ℝ` where the source computes a
square root); Python floats are modelled as exact arithmetic.
-/

namespace IceShield

/-- Freezing point of seawater (°C) as a function of salinity (PSU).
Embeds `calculate_freezing_point` from `utils/calculations.py`:
`return -0.054 * salinity` (the literal `0.054` is the exact rational
`54/1000`). -/
def calculate_freezing_point (salinity : ℚ) : ℚ :=
  -(54 / 1000) * salinity

/-- Result record of the freshwater dilution calculator, mirroring the
dictionary returned by `calculate_freshwater_required` in
`utils/calculations.py`.  The `river_comparisons` dictionary is embedded as
an association list in the source's insertion order. -/
structure DilutionResult where
  seawater_volume_km3 : ℚ
  freshwater_volume_km3 : ℚ
  freshwater_volume_m3 : ℚ
  percent_global_desal : ℚ
  energy_twh : ℚ
  river_comparisons : List (String × ℚ)
  deriving DecidableEq

/-- Embeds `calculate_freshwater_required` from `utils/calculations.py`,
line for line: area conversion to m², seawater volume, dilution volume
`V * (S1/S2 - 1)`, km³ conversions, percent of a fixed global desalination
capacity of `100e6 * 365` m³/yr, energy at 4 kWh/m³ expressed in TWh, and
percent-of-annual-flow comparisons against three fixed river constants. -/
def calculate_freshwater_required (initial_salinity target_salinity area_km2 depth_m : ℚ) :
    DilutionResult :=
  let area_m2 := area_km2 * 1000000
  let seawater_volume_m3 := area_m2 * depth_m
  let freshwater_volume_m3 := seawater_volume_m3 * (initial_salinity / target_salinity - 1)
  let seawater_volume_km3 := seawater_volume_m3 / 1000000000
  let freshwater_volume_km3 := freshwater_volume_m3 / 1000000000
  let global_desal_capacity_m3 : ℚ := 100000000 * 365
  let percent_global_desal := freshwater_volume_m3 / global_desal_capacity_m3 * 100
  let energy_kwh := freshwater_volume_m3 * 4
  let energy_twh := energy_kwh / 1000000000
  { seawater_volume_km3 := seawater_volume_km3
    freshwater_volume_km3 := freshwater_volume_km3
    freshwater_volume_m3 := freshwater_volume_m3
    percent_global_desal := percent_global_desal
    energy_twh := energy_twh
    river_comparisons :=
      [("Amazon River", freshwater_volume_km3 / 5500 * 100),
       ("Rhine River", freshwater_volume_km3 / 70 * 100),
       ("Mississippi River", freshwater_volume_km3 / 580 * 100)] }

/-- Claim C1: for every input with nonzero target salinity,
`calculate_freshwater_required` computes `seawaterVolumeM3 = areaKm2 * 1e6 * depthM`,
`freshwaterVolumeM3 = seawaterVolumeM3 * (initialSalinity/targetSalinity - 1)`,
returns both volumes divided by `1e9` as km³, returns
`percentGlobalDesal = freshwaterVolumeM3 / (100e6 * 365) * 100`,
`energyTwh = freshwaterVolumeM3 * 4 / 1e9`, and river comparisons
`freshwaterVolumeKm3 / flow * 100` for the fixed flows Amazon 5500, Rhine 70,
Mississippi 580 km³/yr.  As a Lean function of its four arguments the result
is deterministic and side-effect free by construction. -/
theorem C1_freshwater_required_formulas (s1 s2 a d : ℚ) (h : s2 ≠ 0) :
    (calculate_freshwater_required s1 s2 a d).freshwater_volume_m3
        = (a * 1000000 * d) * (s1 / s2 - 1)
    ∧ (calculate_freshwater_required s1 s2 a d).seawater_volume_km3
        = (a * 1000000 * d) / 1000000000
    ∧ (calculate_freshwater_required s1 s2 a d).freshwater_volume_km3
        = (calculate_freshwater_required s1 s2 a d).freshwater_volume_m3 / 1000000000
    ∧ (calculate_freshwater_required s1 s2 a d).percent_global_desal
        = (calculate_freshwater_required s1 s2 a d).freshwater_volume_m3
            / (100000000 * 365) * 100
    ∧ (calculate_freshwater_required s1 s2 a d).energy_twh
        = (calculate_freshwater_required s1 s2 a d).freshwater_volume_m3 * 4 / 1000000000
    ∧ (calculate_freshwater_required s1 s2 a d).river_comparisons
        = [("Amazon River",
              (calculate_freshwater_required s1 s2 a d).freshwater_volume_km3 / 5500 * 100),
           ("Rhine River",
              (calculate_freshwater_required s1 s2 a d).freshwater_volume_km3 / 70 * 100),
           ("Mississippi River",
              (calculate_freshwater_required s1 s2 a d).freshwater_volume_km3 / 580 * 100)] :=
  ⟨rfl, rfl, rfl, rfl, rfl, rfl⟩

/-- Witness for C1 at the concrete input (32, 30, 100000, 10). -/
theorem C1_freshwater_required_formulas_witness :
    (32 : ℚ) ≠ 0 ∧
    ((calculate_freshwater_required 32 30 100000 10).freshwater_volume_m3
        = ((100000 : ℚ) * 1000000 * 10) * (32 / 30 - 1)
    ∧ (calculate_freshwater_required 32 30 100000 10).seawater_volume_km3
        = ((100000 : ℚ) * 1000000 * 10) / 1000000000
    ∧ (calculate_freshwater_required 32 30 100000 10).freshwater_volume_km3
        = (calculate_freshwater_required 32 30 100000 10).freshwater_volume_m3 / 1000000000
    ∧ (calculate_freshwater_required 32 30 100000 10).percent_global_desal
        = (calculate_freshwater_required 32 30 100000 10).freshwater_volume_m3
            / (100000000 * 365) * 100
    ∧ (calculate_freshwater_required 32 30 100000 10).energy_twh
        = (calculate_freshwater_required 32 30 100000 10).freshwater_volume_m3
            * 4 / 1000000000
    ∧ (calculate_freshwater_required 32 30 100000 10).river_comparisons
        = [("Amazon River",
              (calculate_freshwater_required 32 30 100000 10).freshwater_volume_km3
                / 5500 * 100),
           ("Rhine River",
              (calculate_freshwater_required 32 30 100000 10).freshwater_volume_km3
                / 70 * 100),
           ("Mississippi River",
              (calculate_freshwater_required 32 30 100000 10).freshwater_volume_km3
                / 580 * 100)]) := by
  have hs : (30 : ℚ) ≠ 0 := by norm_num
  exact ⟨by norm_num, C1_freshwater_required_formulas 32 30 100000 10 hs⟩

/-- Claim C4, counterexample: at the "Small Regional Intervention" input
(32, 30, 100000, 10) the function returns a freshwater volume of exactly
200/3 ≈ 66.67 km³, which is not approximately 6.67 (it is not even within
0.5 of 6.67). -/
theorem C4_counterexample :
    (calculate_freshwater_required 32 30 100000 10).freshwater_volume_km3 = 200 / 3
    ∧ ¬ |(calculate_freshwater_required 32 30 100000 10).freshwater_volume_km3
          - 667 / 100| ≤ 1 / 2 := by
  constructor
  · show (100000 : ℚ) * 1000000 * 10 * (32 / 30 - 1) / 1000000000 = 200 / 3
    norm_num
  · show ¬ |(100000 : ℚ) * 1000000 * 10 * (32 / 30 - 1) / 1000000000 - 667 / 100| ≤ 1 / 2
    rw [abs_le]
    norm_num

/-- Claim C4 as amended: `freshwaterRequired(32, 30, 100000, 10)` returns a
`freshwaterVolumeKm3` approximately equal to 66.67 (exactly 200/3, which is
within 0.01 of 66.67). -/
theorem C4_freshwater_example_amended :
    |(calculate_freshwater_required 32 30 100000 10).freshwater_volume_km3
        - 6667 / 100| ≤ 1 / 100 := by
  have hval : (calculate_freshwater_required 32 30 100000 10).freshwater_volume_km3
      = 200 / 3 := by
    show (100000 : ℚ) * 1000000 * 10 * (32 / 30 - 1) / 1000000000 = 200 / 3
    norm_num
  rw [hval, abs_le]
  norm_num

/-- Claim C5: `calculate_freezing_point` returns exactly `-0.054 * salinity`
for every input, so `freezingPoint 0 = 0`, `freezingPoint 35 = -1.89`
(exactly, hence approximately), and the function is strictly monotonically
decreasing in salinity. -/
theorem C5_freezing_point_contract (s t : ℚ) (h : s < t) :
    calculate_freezing_point s = -(54 / 1000) * s
    ∧ calculate_freezing_point 0 = 0
    ∧ calculate_freezing_point 35 = -(189 / 100)
    ∧ calculate_freezing_point t < calculate_freezing_point s := by
  refine ⟨rfl, by norm_num [calculate_freezing_point],
    by norm_num [calculate_freezing_point], ?_⟩
  unfold calculate_freezing_point
  nlinarith

/-- Witness for C5 at the concrete pair s = 0 < t = 1. -/
theorem C5_freezing_point_contract_witness :
    (0 : ℚ) < 1 ∧
    (calculate_freezing_point 0 = -(54 / 1000) * 0
    ∧ calculate_freezing_point 0 = 0
    ∧ calculate_freezing_point 35 = -(189 / 100)
    ∧ calculate_freezing_point 1 < calculate_freezing_point 0) :=
  ⟨by norm_num, C5_freezing_point_contract 0 1 (by norm_num)⟩

/-- Claim C6: with `0 < targetSalinity < initialSalinity` and positive area and
depth, the freshwater volume in km³ is strictly positive, and it is linear in
area and in depth: doubling the area (salinities and depth fixed) exactly
doubles it, and likewise doubling the depth. -/
theorem C6_positivity_and_linearity (s1 s2 a d : ℚ)
    (hs2 : 0 < s2) (h12 : s2 < s1) (ha : 0 < a) (hd : 0 < d) :
    0 < (calculate_freshwater_required s1 s2 a d).freshwater_volume_km3
    ∧ (calculate_freshwater_required s1 s2 (2 * a) d).freshwater_volume_km3
        = 2 * (calculate_freshwater_required s1 s2 a d).freshwater_volume_km3
    ∧ (calculate_freshwater_required s1 s2 a (2 * d)).freshwater_volume_km3
        = 2 * (calculate_freshwater_required s1 s2 a d).freshwater_volume_km3 := by
  have hx : 0 < s1 / s2 - 1 := by
    have hlt : 1 < s1 / s2 := (one_lt_div hs2).mpr h12
    linarith
  refine ⟨?_, ?_, ?_⟩
  · show 0 < a * 1000000 * d * (s1 / s2 - 1) / 1000000000
    have h1 : (0 : ℚ) < a * 1000000 := by positivity
    have h2 : (0 : ℚ) < a * 1000000 * d := mul_pos h1 hd
    have h3 : (0 : ℚ) < a * 1000000 * d * (s1 / s2 - 1) := mul_pos h2 hx
    exact div_pos h3 (by norm_num)
  · show 2 * a * 1000000 * d * (s1 / s2 - 1) / 1000000000
        = 2 * (a * 1000000 * d * (s1 / s2 - 1) / 1000000000)
    ring
  · show a * 1000000 * (2 * d) * (s1 / s2 - 1) / 1000000000
        = 2 * (a * 1000000 * d * (s1 / s2 - 1) / 1000000000)
    ring

/-- Witness for C6 at the concrete input (32, 30, 1, 1). -/
theorem C6_positivity_and_linearity_witness :
    ((0 : ℚ) < 30 ∧ (30 : ℚ) < 32 ∧ (0 : ℚ) < 1) ∧
    (0 < (calculate_freshwater_required 32 30 1 1).freshwater_volume_km3
    ∧ (calculate_freshwater_required 32 30 (2 * 1) 1).freshwater_volume_km3
        = 2 * (calculate_freshwater_required 32 30 1 1).freshwater_volume_km3
    ∧ (calculate_freshwater_required 32 30 1 (2 * 1)).freshwater_volume_km3
        = 2 * (calculate_freshwater_required 32 30 1 1).freshwater_volume_km3) :=
  ⟨⟨by norm_num, by norm_num, by norm_num⟩,
    C6_positivity_and_linearity 32 30 1 1 (by norm_num) (by norm_num)
      (by norm_num) (by norm_num)⟩

/-- Result record of the frozen-area classifier, mirroring the dictionary
returned by `estimate_newly_frozen_area` in `utils/calculations.py`: three
area counts (`np.sum` of a boolean grid) and the three boolean grids. -/
structure FrozenAreaResult (rows cols : ℕ) where
  currently_frozen_area : ℕ
  newly_frozen_area : ℕ
  total_frozen_area : ℕ
  currently_frozen_map : Fin rows → Fin cols → Bool
  newly_frozen_map : Fin rows → Fin cols → Bool
  total_frozen_map : Fin rows → Fin cols → Bool

/-- Number of `true` cells of a boolean grid; embeds `np.sum` applied to a
boolean numpy array. -/
def count_true {rows cols : ℕ} (grid : Fin rows → Fin cols → Bool) : ℕ :=
  (Finset.univ.filter (fun p : Fin rows × Fin cols => grid p.1 p.2 = true)).card

/-- Embeds `estimate_newly_frozen_area` from `utils/calculations.py`.  The
grids are total functions on `Fin rows × Fin cols` (the two input arrays have
identical dimensions).  `salinity_data` is accepted but, as in the source,
never read.  Cell-wise: currently frozen iff the temperature is strictly
below the initial freezing point, newly frozen iff it lies in the half-open
interval from the initial to the target freezing point, total frozen is the
cell-wise disjunction; areas are the `true`-cell counts (1 cell = 1 km²). -/
def estimate_newly_frozen_area {rows cols : ℕ}
    (temperature_data salinity_data : Fin rows → Fin cols → ℚ)
    (initial_salinity target_salinity : ℚ) : FrozenAreaResult rows cols :=
  let initial_freezing_point := calculate_freezing_point initial_salinity
  let target_freezing_point := calculate_freezing_point target_salinity
  let currently_frozen := fun i j => decide (temperature_data i j < initial_freezing_point)
  let newly_frozen := fun i j =>
    decide (initial_freezing_point ≤ temperature_data i j)
      && decide (temperature_data i j < target_freezing_point)
  let total_frozen := fun i j => currently_frozen i j || newly_frozen i j
  { currently_frozen_area := count_true currently_frozen
    newly_frozen_area := count_true newly_frozen
    total_frozen_area := count_true total_frozen
    currently_frozen_map := currently_frozen
    newly_frozen_map := newly_frozen
    total_frozen_map := total_frozen }

/-- Claim C2: `estimate_newly_frozen_area` classifies every cell against the
freezing points of the initial and target salinities: currently frozen iff
`temperature < initialFreezingPoint`, newly frozen iff
`initialFreezingPoint <= temperature < targetFreezingPoint`, total frozen iff
currently or newly frozen; and each reported area equals the number of `true`
cells of the corresponding boolean grid (one cell = 1 km²). -/
theorem C2_frozen_area_classification {rows cols : ℕ}
    (temperature_data salinity_data : Fin rows → Fin cols → ℚ)
    (initial_salinity target_salinity : ℚ) (i : Fin rows) (j : Fin cols) :
    ((estimate_newly_frozen_area temperature_data salinity_data
        initial_salinity target_salinity).currently_frozen_map i j = true
      ↔ temperature_data i j < calculate_freezing_point initial_salinity)
    ∧ ((estimate_newly_frozen_area temperature_data salinity_data
        initial_salinity target_salinity).newly_frozen_map i j = true
      ↔ (calculate_freezing_point initial_salinity ≤ temperature_data i j
          ∧ temperature_data i j < calculate_freezing_point target_salinity))
    ∧ ((estimate_newly_frozen_area temperature_data salinity_data
        initial_salinity target_salinity).total_frozen_map i j
      = ((estimate_newly_frozen_area temperature_data salinity_data
            initial_salinity target_salinity).currently_frozen_map i j
          || (estimate_newly_frozen_area temperature_data salinity_data
                initial_salinity target_salinity).newly_frozen_map i j))
    ∧ (estimate_newly_frozen_area temperature_data salinity_data
        initial_salinity target_salinity).currently_frozen_area
      = count_true (estimate_newly_frozen_area temperature_data salinity_data
          initial_salinity target_salinity).currently_frozen_map
    ∧ (estimate_newly_frozen_area temperature_data salinity_data
        initial_salinity target_salinity).newly_frozen_area
      = count_true (estimate_newly_frozen_area temperature_data salinity_data
          initial_salinity target_salinity).newly_frozen_map
    ∧ (estimate_newly_frozen_area temperature_data salinity_data
        initial_salinity target_salinity).total_frozen_area
      = count_true (estimate_newly_frozen_area temperature_data salinity_data
          initial_salinity target_salinity).total_frozen_map := by
  refine ⟨?_, ?_, rfl, rfl, rfl, rfl⟩
  · show decide (temperature_data i j < calculate_freezing_point initial_salinity) = true
      ↔ temperature_data i j < calculate_freezing_point initial_salinity
    exact decide_eq_true_iff
  · show (decide (calculate_freezing_point initial_salinity ≤ temperature_data i j)
        && decide (temperature_data i j < calculate_freezing_point target_salinity)) = true
      ↔ (calculate_freezing_point initial_salinity ≤ temperature_data i j
          ∧ temperature_data i j < calculate_freezing_point target_salinity)
    simp

/-- Claim C3: in the result of `estimate_newly_frozen_area`, the currently-
frozen and newly-frozen grids are disjoint at every cell, and the
total-frozen grid is their cell-wise disjunction. -/
theorem C3_frozen_maps_disjoint_and_union {rows cols : ℕ}
    (temperature_data salinity_data : Fin rows → Fin cols → ℚ)
    (initial_salinity target_salinity : ℚ) (i : Fin rows) (j : Fin cols) :
    ¬ ((estimate_newly_frozen_area temperature_data salinity_data
          initial_salinity target_salinity).currently_frozen_map i j = true
        ∧ (estimate_newly_frozen_area temperature_data salinity_data
            initial_salinity target_salinity).newly_frozen_map i j = true)
    ∧ (estimate_newly_frozen_area temperature_data salinity_data
        initial_salinity target_salinity).total_frozen_map i j
      = ((estimate_newly_frozen_area temperature_data salinity_data
            initial_salinity target_salinity).currently_frozen_map i j
          || (estimate_newly_frozen_area temperature_data salinity_data
                initial_salinity target_salinity).newly_frozen_map i j) := by
  refine ⟨?_, rfl⟩
  rintro ⟨h1, h2⟩
  have hlt : temperature_data i j < calculate_freezing_point initial_salinity :=
    of_decide_eq_true h1
  have hle : calculate_freezing_point initial_salinity ≤ temperature_data i j := by
    have h2' : (decide (calculate_freezing_point initial_salinity ≤ temperature_data i j)
        && decide (temperature_data i j
              < calculate_freezing_point target_salinity)) = true := h2
    exact of_decide_eq_true (Bool.and_elim_left h2')
  exact absurd hlt (not_lt.mpr hle)

/-- Claim C7: whenever the target freezing point is at most the initial
freezing point (in particular when the caller passes a target salinity at
least the initial one), `estimate_newly_frozen_area` still returns (it is a
total function, so no crash) and the newly-frozen area is 0: the
newly-frozen interval is empty. -/
theorem C7_degenerate_target_yields_zero {rows cols : ℕ}
    (temperature_data salinity_data : Fin rows → Fin cols → ℚ)
    (initial_salinity target_salinity : ℚ)
    (h : calculate_freezing_point target_salinity
        ≤ calculate_freezing_point initial_salinity) :
    (estimate_newly_frozen_area temperature_data salinity_data
        initial_salinity target_salinity).newly_frozen_area = 0 := by
  show (Finset.univ.filter (fun p : Fin rows × Fin cols =>
      (decide (calculate_freezing_point initial_salinity ≤ temperature_data p.1 p.2)
        && decide (temperature_data p.1 p.2
              < calculate_freezing_point target_salinity)) = true)).card = 0
  rw [Finset.card_eq_zero, Finset.filter_eq_empty_iff]
  intro p _
  simp only [Bool.and_eq_true, decide_eq_true_eq, not_and]
  intro hle hlt
  exact absurd (lt_of_le_of_lt hle hlt) (not_lt.mpr h)

/-- Witness for C7 on a concrete 1×1 field with equal salinities. -/
theorem C7_degenerate_target_yields_zero_witness :
    calculate_freezing_point 32 ≤ calculate_freezing_point 32
    ∧ (estimate_newly_frozen_area (fun (_ : Fin 1) (_ : Fin 1) => (0 : ℚ))
        (fun (_ : Fin 1) (_ : Fin 1) => (0 : ℚ)) 32 32).newly_frozen_area = 0 :=
  ⟨le_refl _,
    C7_degenerate_target_yields_zero
      (fun (_ : Fin 1) (_ : Fin 1) => (0 : ℚ))
      (fun (_ : Fin 1) (_ : Fin 1) => (0 : ℚ)) 32 32 (le_refl _)⟩

/-- Season temperature adjustment table from `generate_arctic_data` in
`pages/03_Ice_Expansion_Simulation.py` (a Python dict lookup). -/
def season_temp_adjust (season : String) : Option ℚ :=
  if season = "Winter" then some (-5)
  else if season = "Spring" then some (-2)
  else if season = "Summer" then some 0
  else if season = "Fall" then some (-3)
  else none

/-- Normalized distance of cell `(i, j)` from the grid center, as computed in
`generate_arctic_data`: `center = grid_size // 2` (integer division),
`distance = sqrt((i - center)^2 + (j - center)^2)`,
`normalized_distance = distance / (grid_size // 2)`. -/
noncomputable def normalized_distance (grid_size i j : ℕ) : ℝ :=
  Real.sqrt (((i : ℝ) - ((grid_size / 2 : ℕ) : ℝ)) ^ 2
      + ((j : ℝ) - ((grid_size / 2 : ℕ) : ℝ)) ^ 2)
    / ((grid_size / 2 : ℕ) : ℝ)

/-- Temperature of cell `(i, j)` in the synthetic field of
`generate_arctic_data`, parameterized by the season adjustment constant. -/
noncomputable def generate_temperature (grid_size : ℕ) (season_adjust : ℝ) (i j : ℕ) : ℝ :=
  if normalized_distance grid_size i j ≤ 1 then
    -10 + 15 * normalized_distance grid_size i j + season_adjust
  else
    5 + 5 * (normalized_distance grid_size i j - 1)

/-- Salinity of cell `(i, j)` in the synthetic field of
`generate_arctic_data`, parameterized by the base (initial) salinity. -/
noncomputable def generate_salinity (grid_size : ℕ) (base_salinity : ℝ) (i j : ℕ) : ℝ :=
  if normalized_distance grid_size i j ≤ 1 then
    base_salinity - 2 * (1 - normalized_distance grid_size i j)
  else
    base_salinity

/-- Circular Arctic mask from `generate_arctic_data`:
`y, x = np.ogrid[-grid_size//2:grid_size//2, -grid_size//2:grid_size//2]`
followed by `mask = x**2 + y**2 <= (grid_size//2)**2`.  Python floor
division sends `-grid_size // 2` to `-((grid_size + 1) / 2)`, so cell
`(i, j)` carries integer offsets `lo + i` and `lo + j` with
`lo = -((grid_size + 1) / 2)`. -/
def arctic_mask (grid_size i j : ℕ) : Bool :=
  let lo : ℤ := -(((grid_size + 1) / 2 : ℕ) : ℤ)
  decide ((lo + (j : ℤ)) ^ 2 + (lo + (i : ℤ)) ^ 2 ≤ ((grid_size / 2 : ℕ) : ℤ) ^ 2)

/-- The real-valued condition `normalized_distance <= 1.0` of the generator is
equivalent to an integer inequality on squared offsets from the center. -/
theorem normalized_distance_le_one_iff (grid_size i j : ℕ) (hg : 0 < grid_size / 2) :
    normalized_distance grid_size i j ≤ 1
      ↔ ((i : ℤ) - ((grid_size / 2 : ℕ) : ℤ)) ^ 2
          + ((j : ℤ) - ((grid_size / 2 : ℕ) : ℤ)) ^ 2
          ≤ ((grid_size / 2 : ℕ) : ℤ) ^ 2 := by
  unfold normalized_distance
  revert hg
  generalize grid_size / 2 = c
  intro hg
  have hc0 : (0 : ℝ) < (c : ℝ) := by exact_mod_cast hg
  rw [div_le_one hc0, Real.sqrt_le_iff]
  constructor
  · rintro ⟨-, h2⟩
    refine (@Int.cast_le ℝ _ _ _).mp ?_
    push_cast at h2 ⊢
    linarith
  · intro h2
    refine ⟨le_of_lt hc0, ?_⟩
    have h3 := (@Int.cast_le ℝ _ _ _).mpr h2
    push_cast at h3
    linarith

/-- Claim C8: the synthetic field generator is a pure function of grid size,
season adjustment and base salinity; inside the unit-normalized circle
(`normalized_distance <= 1.0`) it assigns
`temperature = -10 + 15 * normalizedDistance + seasonAdjustmentC` and
`salinity = baseSalinity - 2 * (1 - normalizedDistance)`, outside it assigns
`temperature = 5 + 5 * (normalizedDistance - 1)` and `salinity = baseSalinity`
exactly; in particular, with grid size 100, the Winter adjustment (-5.0, the
value of the season lookup table on "Winter") and base salinity 32, the
center cell temperature is -15 and every cell outside the circle has salinity
exactly 32. -/
theorem C8_generate_field_formulas (grid_size : ℕ) (adj base : ℝ) (i j : ℕ) :
    (normalized_distance grid_size i j ≤ 1 →
      generate_temperature grid_size adj i j
          = -10 + 15 * normalized_distance grid_size i j + adj
      ∧ generate_salinity grid_size base i j
          = base - 2 * (1 - normalized_distance grid_size i j))
    ∧ (¬ normalized_distance grid_size i j ≤ 1 →
      generate_temperature grid_size adj i j
          = 5 + 5 * (normalized_distance grid_size i j - 1)
      ∧ generate_salinity grid_size base i j = base)
    ∧ season_temp_adjust "Winter" = some (-5)
    ∧ generate_temperature 100 (-5) 50 50 = -15
    ∧ (¬ normalized_distance 100 i j ≤ 1 → generate_salinity 100 32 i j = 32) := by
  have hnd : normalized_distance 100 50 50 = 0 := by
    unfold normalized_distance
    norm_num
  refine ⟨?_, ?_, ?_, ?_, ?_⟩
  · intro hin
    unfold generate_temperature generate_salinity
    rw [if_pos hin, if_pos hin]
    exact ⟨rfl, rfl⟩
  · intro hout
    unfold generate_temperature generate_salinity
    rw [if_neg hout, if_neg hout]
    exact ⟨rfl, rfl⟩
  · rfl
  · unfold generate_temperature
    rw [hnd, if_pos (by norm_num : (0 : ℝ) ≤ 1)]
    norm_num
  · intro hout
    unfold generate_salinity
    rw [if_neg hout]

/-- Witness for C8: the corner cell (0, 0) of the 100-grid lies outside the
unit-normalized circle, and its salinity evaluates to the base value 32. -/
theorem C8_generate_field_formulas_witness :
    ¬ normalized_distance 100 0 0 ≤ 1 ∧ generate_salinity 100 32 0 0 = 32 := by
  have hout : ¬ normalized_distance 100 0 0 ≤ 1 := by
    rw [normalized_distance_le_one_iff 100 0 0 (by norm_num)]
    decide
  exact ⟨hout, (C8_generate_field_formulas 100 (-5) 32 0 0).2.2.2.2 hout⟩

/-- Claim C9: the circular domain mask of `generate_arctic_data` uses a
different distance convention (plain squared offsets in `np.ogrid` cell-index
space against the squared radius) than the unit-normalized distance used for
temperature and salinity, and for some grid size the two classifications
disagree: there is a grid size and a cell on the boundary circle (squared
center offset exactly the squared radius) that the normalization classifies
as inside while the mask excludes it. -/
theorem C9_mask_convention_mismatch :
    ∃ grid_size i j : ℕ, i < grid_size ∧ j < grid_size
      ∧ ((i : ℤ) - ((grid_size / 2 : ℕ) : ℤ)) ^ 2
          + ((j : ℤ) - ((grid_size / 2 : ℕ) : ℤ)) ^ 2
          = ((grid_size / 2 : ℕ) : ℤ) ^ 2
      ∧ normalized_distance grid_size i j ≤ 1
      ∧ arctic_mask grid_size i j = false := by
  refine ⟨5, 0, 2, by norm_num, by norm_num, by decide, ?_, by decide⟩
  rw [normalized_distance_le_one_iff 5 0 2 (by norm_num)]
  decide

/-- Persisted scenario record: the input fields of `save_scenario` in
`utils/database.py` (the id and the timestamps are generated by the store,
not passed by the caller). -/
structure Scenario where
  name : String
  description : String
  initial_salinity : ℚ
  target_salinity : ℚ
  area_km2 : ℚ
  depth_m : ℚ
  season : String
  grid_size : ℕ
  is_favorite : Bool
  deriving DecidableEq

/-- Modelled from the spec: the storage engine behind `utils/database.py`
(an SQL table with an autoincrement integer primary key, reached through an
SQLAlchemy session) is not part of the source tree; following the spec,
which treats the ScenarioStore as a generic record store with CRUD
operations, it is modelled as an in-memory table of (id, record) rows plus
a fresh-id counter. -/
structure ScenarioStore where
  next_id : ℕ
  rows : List (ℕ × Scenario)
  deriving DecidableEq

/-- Embeds `save_scenario` from `utils/database.py`: inserts a new row under
a fresh primary key and returns the new id together with the updated
store. -/
def save_scenario (store : ScenarioStore) (s : Scenario) : ℕ × ScenarioStore :=
  (store.next_id, ⟨store.next_id + 1, (store.next_id, s) :: store.rows⟩)

/-- Embeds `get_scenario` from `utils/database.py`:
`query.filter(id == scenario_id).first()`, returning `none` when no row
matches. -/
def get_scenario (store : ScenarioStore) (scenario_id : ℕ) : Option Scenario :=
  (store.rows.find? (fun row => row.1 == scenario_id)).map Prod.snd

/-- Embeds `delete_scenario` from `utils/database.py`: returns `false` and
leaves the store unchanged when no row matches, otherwise removes the row
with the given primary key and returns `true`. -/
def delete_scenario (store : ScenarioStore) (scenario_id : ℕ) : Bool × ScenarioStore :=
  if (store.rows.find? (fun row => row.1 == scenario_id)).isSome then
    (true, ⟨store.next_id, store.rows.filter (fun row => !(row.1 == scenario_id))⟩)
  else
    (false, store)

/-- After a delete, a lookup of the deleted id reports not-found. -/
theorem get_scenario_after_delete (store : ScenarioStore) (scenario_id : ℕ) :
    get_scenario (delete_scenario store scenario_id).2 scenario_id = none := by
  unfold delete_scenario get_scenario
  split_ifs with hfound
  · simp only
    rw [List.find?_eq_none.mpr]
    · rfl
    · intro x hx
      have hmem := (List.mem_filter.mp hx).2
      simp only [Bool.not_eq_true'] at hmem
      simp [hmem]
  · simp only
    have hnone : store.rows.find? (fun row => row.1 == scenario_id) = none := by
      cases hf : store.rows.find? (fun row => row.1 == scenario_id) with
      | none => rfl
      | some v => rw [hf] at hfound; simp at hfound
    rw [hnone]
    rfl

/-- Claim C10: saving a scenario and fetching it back by the returned id
yields a record with exactly the input fields passed to save, and after a
successful delete of an id, fetching that id reports not-found. -/
theorem C10_scenario_lifecycle (store : ScenarioStore) (s : Scenario) (scenario_id : ℕ) :
    get_scenario (save_scenario store s).2 (save_scenario store s).1 = some s
    ∧ ((delete_scenario store scenario_id).1 = true →
        get_scenario (delete_scenario store scenario_id).2 scenario_id = none) := by
  constructor
  · show ((((store.next_id, s) :: store.rows).find?
        (fun row => row.1 == store.next_id)).map Prod.snd) = some s
    rw [List.find?_cons_of_pos]
    · rfl
    · simp
  · intro hdel
    exact get_scenario_after_delete store scenario_id

/-- Concrete scenario record used by the C10 witness. -/
def demo_scenario : Scenario :=
  { name := "Arctic demo", description := "demo", initial_salinity := 32,
    target_salinity := 30, area_km2 := 100000, depth_m := 10,
    season := "Winter", grid_size := 100, is_favorite := false }

/-- Witness for C10 on a concrete store: saving into the empty store, the
delete of the returned id succeeds and the subsequent lookup is `none`. -/
theorem C10_scenario_lifecycle_witness :
    (delete_scenario (save_scenario ⟨1, []⟩ demo_scenario).2 1).1 = true
    ∧ get_scenario (delete_scenario (save_scenario ⟨1, []⟩ demo_scenario).2 1).2 1 = none :=
  ⟨rfl, (C10_scenario_lifecycle (save_scenario ⟨1, []⟩ demo_scenario).2 demo_scenario 1).2 rfl⟩

end IceShield
